import Mathlib

/-!
# Trusera SDK (JavaScript/TypeScript) — verification of spec claims

A shallow embedding of the core of the Trusera SDK:

* `src/events.ts` — the event model: `EventType`, `Event`, `createEvent`,
  `isValidEvent`.  JavaScript objects are mutable reference values, so the
  payload/metadata maps are modelled through an explicit heap of objects
  addressed by `Nat`; the object-spread `{...m}` used by `createEvent`
  becomes an allocation that copies the entry list of the source object
  (a shallow copy: entry values that are references stay shared).
* `src/client.ts` — `TruseraClient`: construction, `track`, `flush`,
  `close`, `getQueueSize`.  The `fetch` of a batch is modelled by a
  function from the batch to a `SendOutcome` (2xx / HTTP error / thrown
  network error); `flush`'s try/catch makes both failure branches
  re-queue, so the embedded `flush` never produces a thrown error.
* `src/interceptor.ts` — `TruseraInterceptor`: this source file is not
  part of the sources available here (only its test suite is), so the
  install/uninstall discipline and the interception algorithm are
  modelled from the specification, as marked on each definition.
-/

set_option autoImplicit false

namespace Trusera

/-! ## JavaScript value and heap model -/

/-- A JavaScript runtime value as far as the SDK core manipulates them:
primitives plus references into a heap of plain objects. -/
inductive JSVal where
  | vUndef : JSVal
  | vNull : JSVal
  | vStr : String → JSVal
  | vNum : Int → JSVal
  | vBool : Bool → JSVal
  | vRef : Nat → JSVal
deriving DecidableEq, Repr

/-- A plain JavaScript object: its own enumerable string-keyed entries,
in insertion order (JS objects preserve string-key insertion order). -/
abbrev JSObj := List (String × JSVal)

/-- The object heap: address `a` denotes the object at index `a`.
Allocation appends at the end, so existing addresses are never moved. -/
abbrev Heap := List JSObj

/-- Dereference an address. -/
def getObj (h : Heap) (a : Nat) : Option JSObj :=
  h.get? a

/-- The entries of the object at `a` (empty when the address is dangling,
which never happens for addresses produced by `alloc`). -/
def entriesOf (h : Heap) (a : Nat) : JSObj :=
  (getObj h a).getD []

/-- JavaScript property write on an entry list: an existing key is
overwritten in place, a new key is appended. -/
def setEntry : JSObj → String → JSVal → JSObj
  | [], k, v => [(k, v)]
  | (k', v') :: rest, k, v =>
      if k' = k then (k, v) :: rest else (k', v') :: setEntry rest k v

/-- JavaScript property read on an entry list: a missing key is `undefined`. -/
def lookupEntry (o : JSObj) (k : String) : JSVal :=
  match o.find? (fun kv => kv.1 = k) with
  | some kv => kv.2
  | none => JSVal.vUndef

/-- Mutate `h[a][k] := v` (the caller mutating one of its maps).
A dangling address leaves the heap unchanged. -/
def setField (h : Heap) (a : Nat) (k : String) (v : JSVal) : Heap :=
  match h.get? a with
  | some o => h.set a (setEntry o k v)
  | none => h

/-- Property read through the heap: `h[a][k]`. -/
def getField (h : Heap) (a : Nat) (k : String) : JSVal :=
  match getObj h a with
  | some o => lookupEntry o k
  | none => JSVal.vUndef

/-- Two-step property read `h[a][k1][k2]`, used to observe nested values. -/
def getField2 (h : Heap) (a : Nat) (k1 k2 : String) : JSVal :=
  match getField h a k1 with
  | JSVal.vRef b => getField h b k2
  | _ => JSVal.vUndef

/-- Allocate a fresh object with the given entries; returns the new heap
and the fresh address. -/
def alloc (h : Heap) (o : JSObj) : Heap × Nat :=
  (h ++ [o], h.length)

/-! ## `src/events.ts` -/

/-- Event types tracked by the SDK (`enum EventType`). -/
inductive EventType where
  | TOOL_CALL : EventType
  | LLM_INVOKE : EventType
  | DATA_ACCESS : EventType
  | API_CALL : EventType
  | FILE_WRITE : EventType
  | DECISION : EventType
deriving DecidableEq, Repr

/-- The string value of each `EventType` member. -/
def eventTypeString : EventType → String
  | EventType.TOOL_CALL => "tool_call"
  | EventType.LLM_INVOKE => "llm_invoke"
  | EventType.DATA_ACCESS => "data_access"
  | EventType.API_CALL => "api_call"
  | EventType.FILE_WRITE => "file_write"
  | EventType.DECISION => "decision"

/-- `Object.values(EventType)`, in declaration order. -/
def eventTypeValues : List String :=
  ["tool_call", "llm_invoke", "data_access", "api_call", "file_write", "decision"]

/-- The `Event` interface.  `payload` and `metadata` are heap addresses of
the two map objects, mirroring the fact that in JavaScript they are
references to mutable objects. -/
structure Event where
  id : String
  type : EventType
  name : String
  payload : Nat
  metadata : Nat
  timestamp : String
deriving DecidableEq, Repr

/-- `createEvent(type, name, payload, metadata)`.  `crypto.randomUUID()`
and `new Date().toISOString()` are ambient effects, so the generated `id`
and `timestamp` are passed in as parameters.  The two object spreads
`{ ...payload }` and `{ ...metadata }` allocate fresh objects whose entry
lists are copied from the argument objects — entry *values* are copied as
values, so a reference to a nested object stays shared. -/
def createEvent (h : Heap) (type : EventType) (name : String)
    (payload metadata : Nat) (id timestamp : String) : Heap × Event :=
  let ap := alloc h (entriesOf h payload)
  let am := alloc ap.1 (entriesOf ap.1 metadata)
  (am.1,
   { id := id, type := type, name := name,
     payload := ap.2, metadata := am.2, timestamp := timestamp })

/-! ### The `unknown` view, for `isValidEvent`

`isValidEvent` takes an `unknown` and inspects it with `typeof` tests.
`Unknown` is the tree view of a runtime value; `jsvalToUnknown` reads a
heap value out as such a tree (fuel-bounded, since heaps may contain
reference cycles; the fuel is irrelevant above the depth actually read). -/

/-- An `unknown` JavaScript value as a tree. -/
inductive Unknown where
  | undef : Unknown
  | null : Unknown
  | strv : String → Unknown
  | numv : Int → Unknown
  | boolv : Bool → Unknown
  | obj : List (String × Unknown) → Unknown
deriving Repr

/-- `typeof` for `Unknown` values (`typeof null` is `"object"` in JS). -/
def typeofU : Unknown → String
  | Unknown.undef => "undefined"
  | Unknown.null => "object"
  | Unknown.strv _ => "string"
  | Unknown.numv _ => "number"
  | Unknown.boolv _ => "boolean"
  | Unknown.obj _ => "object"

/-- Property read on an `unknown`: a missing key, or a non-object, reads
as `undefined`. -/
def getPropU (u : Unknown) (k : String) : Unknown :=
  match u with
  | Unknown.obj fs =>
      match fs.find? (fun kv => kv.1 = k) with
      | some kv => kv.2
      | none => Unknown.undef
  | _ => Unknown.undef

/-- Read a heap value out as an `Unknown` tree, following references up
to `fuel` levels deep. -/
def jsvalToUnknown (h : Heap) : Nat → JSVal → Unknown
  | _, JSVal.vUndef => Unknown.undef
  | _, JSVal.vNull => Unknown.null
  | _, JSVal.vStr s => Unknown.strv s
  | _, JSVal.vNum n => Unknown.numv n
  | _, JSVal.vBool b => Unknown.boolv b
  | 0, JSVal.vRef _ => Unknown.undef
  | fuel + 1, JSVal.vRef a =>
      match getObj h a with
      | some o => Unknown.obj (o.map (fun kv => (kv.1, jsvalToUnknown h fuel kv.2)))
      | none => Unknown.undef

/-- The runtime value of an `Event` record, as handed to `isValidEvent`. -/
def eventToUnknown (h : Heap) (e : Event) : Unknown :=
  Unknown.obj
    [("id", Unknown.strv e.id),
     ("type", Unknown.strv (eventTypeString e.type)),
     ("name", Unknown.strv e.name),
     ("payload", jsvalToUnknown h (h.length + 1) (JSVal.vRef e.payload)),
     ("metadata", jsvalToUnknown h (h.length + 1) (JSVal.vRef e.metadata)),
     ("timestamp", Unknown.strv e.timestamp)]

/-- `value === null`, as a Boolean test. -/
def isNullU : Unknown → Bool
  | Unknown.null => true
  | _ => false

/-- `isValidEvent(obj)`: the runtime type guard from `src/events.ts`. -/
def isValidEvent (u : Unknown) : Bool :=
  if typeofU u != "object" || isNullU u then false
  else
    (typeofU (getPropU u "id") == "string") &&
    (typeofU (getPropU u "type") == "string") &&
    (match getPropU u "type" with
     | Unknown.strv s => eventTypeValues.contains s
     | _ => false) &&
    (typeofU (getPropU u "name") == "string") &&
    (typeofU (getPropU u "payload") == "object" && !isNullU (getPropU u "payload")) &&
    (typeofU (getPropU u "metadata") == "object" && !isNullU (getPropU u "metadata")) &&
    (typeofU (getPropU u "timestamp") == "string")

/-! ## `src/client.ts` — `TruseraClient` -/

/-- Constructor options (`TruseraClientOptions`): optional fields carry
`undefined` as `none`, resolved by `??` defaults in the constructor. -/
structure TruseraClientOptions where
  apiKey : String
  baseUrl : Option String
  agentId : Option String
  flushInterval : Option Nat
  batchSize : Option Nat
  debug : Option Bool
deriving Repr

/-- The mutable state of a `TruseraClient` instance, together with its
configuration fields (all `readonly` after construction). `timerActive`
models whether the auto-flush interval timer is currently scheduled. -/
structure ClientState where
  apiKey : String
  baseUrl : String
  batchSize : Nat
  flushInterval : Nat
  debug : Bool
  agentId : Option String
  eventQueue : List Event
  timerActive : Bool
  isClosed : Bool
deriving Repr

/-- The constructor: applies `??` defaults, rejects an API key that does
not start with `"tsk_"` (thrown `Error`, modelled as `Except.error` with
the thrown message), then starts the auto-flush timer. -/
def TruseraClient.mkClient (o : TruseraClientOptions) : Except String ClientState :=
  if o.apiKey.startsWith "tsk_" then
    Except.ok
      { apiKey := o.apiKey,
        baseUrl := o.baseUrl.getD "https://api.trusera.io",
        batchSize := o.batchSize.getD 100,
        flushInterval := o.flushInterval.getD 5000,
        debug := o.debug.getD false,
        agentId := o.agentId,
        eventQueue := [],
        timerActive := true,
        isClosed := false }
  else
    Except.error "Invalid API key format. Must start with 'tsk_'"

/-- `getQueueSize()`. -/
def TruseraClient.getQueueSize (s : ClientState) : Nat :=
  s.eventQueue.length

/-- `getAgentId()`. -/
def TruseraClient.getAgentId (s : ClientState) : Option String :=
  s.agentId

/-- `string | undefined` as a JavaScript value. -/
def jsOfOptStr : Option String → JSVal
  | some s => JSVal.vStr s
  | none => JSVal.vUndef

/-- The entry list of the enriched metadata object built by `track`:
`{ ...event.metadata, agent_id: this.agentId, sdk_version: "0.1.0" }`. -/
def TruseraClient.enrichedMetaEntries (h : Heap) (s : ClientState) (event : Event) : JSObj :=
  setEntry (setEntry (entriesOf h event.metadata) "agent_id" (jsOfOptStr s.agentId))
    "sdk_version" (JSVal.vStr "0.1.0")

/-- `track(event)`.  Returns the heap and client state after the call and
either the thrown error (`Except.error`, leaving heap and state as given,
which the returned pair makes explicit) or `Except.ok trig` where `trig`
records whether the batch-size threshold triggered a fire-and-forget
`flush`.  The enriched copy `{ ...event, metadata: {...} }` shares the
payload reference and points at a freshly allocated metadata object. -/
def TruseraClient.track (h : Heap) (s : ClientState) (event : Event) :
    Heap × ClientState × Except String Bool :=
  if s.isClosed then
    (h, s, Except.error "Cannot track events on closed client")
  else
    let am := alloc h (TruseraClient.enrichedMetaEntries h s event)
    let enrichedEvent : Event := { event with metadata := am.2 }
    let q := s.eventQueue ++ [enrichedEvent]
    (am.1, { s with eventQueue := q }, Except.ok (decide (s.batchSize ≤ q.length)))

/-- Outcome of the `fetch` that posts one batch to
`/api/v1/events/batch`: a 2xx response, a non-2xx response (status and
body text), or a rejected promise (network error). -/
inductive SendOutcome where
  | ok2xx : SendOutcome
  | httpError : Nat → String → SendOutcome
  | netThrow : String → SendOutcome
deriving DecidableEq, Repr

/-- `flush()`.  The network is a function from the posted batch to its
`SendOutcome`.  Empty queue: return, no send (`none`).  Otherwise
`splice(0, batchSize)` removes the head batch; a non-ok response or a
thrown network error re-queues it with `unshift(...batch)`; both failure
paths are caught inside `flush`, so the result is always `Except.ok`,
carrying the final state and the batch that was sent (if any). -/
def TruseraClient.flush (s : ClientState) (net : List Event → SendOutcome) :
    Except String (ClientState × Option (List Event)) :=
  if s.eventQueue.isEmpty then
    Except.ok (s, none)
  else
    let batch := s.eventQueue.take s.batchSize
    let rest := s.eventQueue.drop s.batchSize
    match net batch with
    | SendOutcome.ok2xx =>
        Except.ok ({ s with eventQueue := rest }, some batch)
    | SendOutcome.httpError _ _ =>
        Except.ok ({ s with eventQueue := batch ++ rest }, some batch)
    | SendOutcome.netThrow _ =>
        Except.ok ({ s with eventQueue := batch ++ rest }, some batch)

/-- `close()`: set `isClosed`, stop the flush timer, then one final
`flush()`. -/
def TruseraClient.close (s : ClientState) (net : List Event → SendOutcome) :
    Except String (ClientState × Option (List Event)) :=
  TruseraClient.flush { s with isClosed := true, timerActive := false } net

/-! ## `src/interceptor.ts` — `TruseraInterceptor`

The interceptor source file is not among the sources available here; only
its test suite (`tests/interceptor.test.ts`) is.  The definitions below
are therefore modelled from the specification (§4.2, §5, §9), as each doc
comment records. -/

/-- Modelled from the spec: a transport function identity.  `src/interceptor.ts`
is missing; per §2.5/§9 the global slot holds either some underlying
transport function (the pristine `fetch` or whatever was active before an
install) or an interceptor instance's intercepting function. -/
inductive Transport where
  | base : Nat → Transport
  | intercepting : Nat → Transport
deriving DecidableEq, Repr

/-- Modelled from the spec: the process-wide singleton slot — the
"currently installed transport override" (`globalThis.fetch`) plus which
interceptor instance, if any, currently holds the slot (§3, §9:
"single-slot registry holding current active transport"). -/
structure TransportSlot where
  current : Transport
  holder : Option Nat
deriving DecidableEq, Repr

/-- Modelled from the spec: one `TruseraInterceptor` instance — its
identity, its installed flag, and "a saved reference to the prior
(possibly original) transport function" (§3). -/
structure TruseraInterceptor where
  instId : Nat
  installed : Bool
  savedTransport : Transport
deriving DecidableEq, Repr

/-- Modelled from the spec: `install(client, options)` from the missing
`src/interceptor.ts` (§4.2): fails with `AlreadyInstalledError` if a
*different* instance holds the global slot (thrown message per the test
suite); installing the same instance twice is idempotent; otherwise saves
the currently-active transport and replaces the global transport with
this instance's intercepting function. -/
def TruseraInterceptor.install (w : TransportSlot) (it : TruseraInterceptor) :
    Except String (TransportSlot × TruseraInterceptor) :=
  match w.holder with
  | some j =>
      if j = it.instId then
        Except.ok (w, it)
      else
        Except.error "Another TruseraInterceptor is already installed"
  | none =>
      Except.ok
        ({ current := Transport.intercepting it.instId, holder := some it.instId },
         { it with installed := true, savedTransport := w.current })

/-- Modelled from the spec: `uninstall()` (§4.2): restores the previously
saved transport into the global slot and clears this instance's installed
flag; a no-op when the instance is not installed. -/
def TruseraInterceptor.uninstall (w : TransportSlot) (it : TruseraInterceptor) :
    TransportSlot × TruseraInterceptor :=
  if it.installed then
    ({ current := it.savedTransport, holder := none }, { it with installed := false })
  else
    (w, it)

/-- Enforcement mode (§4.2): fixed per install. -/
inductive Enforcement where
  | log : Enforcement
  | warn : Enforcement
  | block : Enforcement
deriving DecidableEq, Repr

/-- Modelled from the spec: interceptor install options (§4.2, §6).
Each exclude pattern is carried as the URL predicate its regular
expression denotes. -/
structure InterceptorOptions where
  enforcement : Enforcement
  policyUrl : Option String
  excludePatterns : List (String → Bool)
  debug : Bool

/-- First-match-wins exclude test (§4.2 step 3). -/
def matchesExclude (opts : InterceptorOptions) (url : String) : Bool :=
  opts.excludePatterns.any (fun p => p url)

/-- The policy service's decision (§6): `{decision, reasons?}`. -/
inductive PolicyDecision where
  | Allow : PolicyDecision
  | Deny : List String → PolicyDecision
deriving DecidableEq, Repr

/-- Outcome of the policy-evaluation call: a decision, or the call
rejected/threw (service unreachable or erroring). -/
inductive PolicyOutcome where
  | ok : PolicyDecision → PolicyOutcome
  | unreachable : String → PolicyOutcome
deriving DecidableEq, Repr

/-- Errors an intercepted call can surface to its caller: a block-mode
`PolicyViolationError`, or the wrapped real call's own error, re-raised. -/
inductive JsError where
  | policyViolation : String → JsError
  | transportError : String → JsError
deriving DecidableEq, Repr

/-- The block/warn violation message, naming the first denial reason
(message shape per the test suite). -/
def policyViolationMessage (reasons : List String) : String :=
  "[Trusera] Policy violation: " ++ reasons.headD "unknown"

/-- What one intercepted call did: how many times the saved prior
transport was invoked, the tracking events emitted (by name, in order),
the console warnings printed, and the outcome surfaced to the caller. -/
structure InterceptResult where
  transportCalls : Nat
  events : List String
  warnings : List String
  outcome : Except JsError Nat
deriving Repr

/-- The real call's outcome as the interceptor surfaces it: a success
passes through, a rejection is re-raised unchanged (as the transport's
own error, never a policy violation). -/
def realOutcome (realCall : Except String Nat) : Except JsError Nat :=
  match realCall with
  | Except.ok status => Except.ok status
  | Except.error m => Except.error (JsError.transportError m)

/-- Modelled from the spec: the interception algorithm of the missing
`src/interceptor.ts` (§4.2 steps 1–6) for one outbound call.  `policy` is
the outcome the policy endpoint would give for this request, `realCall`
the outcome of the saved prior transport.  An excluded URL skips policy
evaluation and event emission entirely; `log` mode never calls the policy
service; a policy failure fails open (treated as Allow) in every mode;
`warn` prints a warning and proceeds; `block` on Deny raises the
violation without issuing the real call. -/
def interceptedFetch (opts : InterceptorOptions) (policy : PolicyOutcome)
    (realCall : Except String Nat) (url : String) : InterceptResult :=
  if matchesExclude opts url then
    { transportCalls := 1, events := [], warnings := [], outcome := realOutcome realCall }
  else
    let gate : Option JsError × List String :=
      match opts.policyUrl, opts.enforcement with
      | none, _ => (none, [])
      | some _, Enforcement.log => (none, [])
      | some _, _ =>
          match policy with
          | PolicyOutcome.unreachable _ => (none, [])
          | PolicyOutcome.ok PolicyDecision.Allow => (none, [])
          | PolicyOutcome.ok (PolicyDecision.Deny reasons) =>
              match opts.enforcement with
              | Enforcement.block => (some (JsError.policyViolation (policyViolationMessage reasons)), [])
              | _ => (none, [policyViolationMessage reasons])
    match gate.1 with
    | some err =>
        { transportCalls := 0, events := ["api_call"], warnings := gate.2,
          outcome := Except.error err }
    | none =>
        match realCall with
        | Except.ok status =>
            { transportCalls := 1, events := ["api_call", "api_call.response"],
              warnings := gate.2, outcome := Except.ok status }
        | Except.error m =>
            { transportCalls := 1, events := ["api_call", "api_call.error"],
              warnings := gate.2, outcome := Except.error (JsError.transportError m) }

/-! ## Heap lemmas -/

theorem getObj_append_lt (h t : Heap) (a : Nat) (ha : a < h.length) :
    getObj (h ++ t) a = getObj h a := by
  simp [getObj, List.get?_eq_getElem?, List.getElem?_append, ha]

theorem getObj_concat_self (h : Heap) (o : JSObj) :
    getObj (h ++ [o]) h.length = some o := by
  simp [getObj, List.get?_eq_getElem?, List.getElem?_concat_length]

theorem entriesOf_append_lt (h t : Heap) (a : Nat) (ha : a < h.length) :
    entriesOf (h ++ t) a = entriesOf h a := by
  unfold entriesOf
  rw [getObj_append_lt h t a ha]

/-- A write at address `a` does not change reads at a different address. -/
theorem getField_setField_ne (h : Heap) (a b : Nat) (k k' : String) (v : JSVal)
    (hab : a ≠ b) : getField (setField h a k v) b k' = getField h b k' := by
  unfold setField
  cases hg : h.get? a with
  | none => rfl
  | some o =>
      unfold getField getObj
      rw [List.get?_eq_getElem?, List.getElem?_set_ne hab, ← List.get?_eq_getElem?]

/-! ## Claims about `src/events.ts` -/

/-- C5 (counterexample): `createEvent` copies the payload map with the
object spread `{ ...payload }`, a *shallow* copy.  Concretely: the caller
passes a payload map (address 1) whose key `"x"` holds a reference to a
nested object (address 0) with `y = 1`; after construction the event's
payload reads `x.y = 1`, but when the caller then mutates the nested
object to `y = 2`, the event's payload reads `x.y = 2` — a later mutation
of a nested value by the caller does affect the constructed event,
refuting the claim that the maps are deep-copied. -/
theorem createEvent_deep_copy_cex :
    getField2
        (createEvent [[("y", JSVal.vNum 1)], [("x", JSVal.vRef 0)], []]
          EventType.TOOL_CALL "t" 1 2 "id-1" "ts-1").1
        (createEvent [[("y", JSVal.vNum 1)], [("x", JSVal.vRef 0)], []]
          EventType.TOOL_CALL "t" 1 2 "id-1" "ts-1").2.payload "x" "y" = JSVal.vNum 1 ∧
    getField2
        (setField
          (createEvent [[("y", JSVal.vNum 1)], [("x", JSVal.vRef 0)], []]
            EventType.TOOL_CALL "t" 1 2 "id-1" "ts-1").1 0 "y" (JSVal.vNum 2))
        (createEvent [[("y", JSVal.vNum 1)], [("x", JSVal.vRef 0)], []]
          EventType.TOOL_CALL "t" 1 2 "id-1" "ts-1").2.payload "x" "y" = JSVal.vNum 2 := by
  exact ⟨rfl, rfl⟩

/-- C5 (amended): `createEvent` copies `payload` and `metadata`
*shallowly* at construction: the event's maps are fresh objects (distinct
from the caller's map addresses) holding a copy of the entries, so any
later *top-level* mutation by the caller of the maps it passed in cannot
affect the constructed event's payload or metadata; nested objects,
however, remain shared by reference. -/
theorem createEvent_shallow_copy (h : Heap) (ty : EventType) (nm : String)
    (payload metadata : Nat) (id ts : String)
    (hp : payload < h.length) (hm : metadata < h.length) :
    (createEvent h ty nm payload metadata id ts).2.payload ≠ payload ∧
    (createEvent h ty nm payload metadata id ts).2.metadata ≠ metadata ∧
    getObj (createEvent h ty nm payload metadata id ts).1
        (createEvent h ty nm payload metadata id ts).2.payload =
      some (entriesOf h payload) ∧
    getObj (createEvent h ty nm payload metadata id ts).1
        (createEvent h ty nm payload metadata id ts).2.metadata =
      some (entriesOf h metadata) ∧
    (∀ k v k',
      getField (setField (createEvent h ty nm payload metadata id ts).1 payload k v)
          (createEvent h ty nm payload metadata id ts).2.payload k' =
        getField (createEvent h ty nm payload metadata id ts).1
          (createEvent h ty nm payload metadata id ts).2.payload k') ∧
    (∀ k v k',
      getField (setField (createEvent h ty nm payload metadata id ts).1 metadata k v)
          (createEvent h ty nm payload metadata id ts).2.metadata k' =
        getField (createEvent h ty nm payload metadata id ts).1
          (createEvent h ty nm payload metadata id ts).2.metadata k') := by
  have hlen : (h ++ [entriesOf h payload]).length = h.length + 1 := by simp
  simp only [createEvent, alloc]
  refine ⟨by omega, by omega, ?_, ?_, ?_, ?_⟩
  · rw [getObj_append_lt _ _ _ (by simp)]
    exact getObj_concat_self h (entriesOf h payload)
  · rw [entriesOf_append_lt h [entriesOf h payload] metadata hm]
    exact getObj_concat_self (h ++ [entriesOf h payload]) (entriesOf h metadata)
  · intro k v k'
    exact getField_setField_ne _ payload h.length k k' v (by omega)
  · intro k v k'
    exact getField_setField_ne _ metadata (h ++ [entriesOf h payload]).length k k' v
      (by omega)

/-- Witness for `createEvent_shallow_copy` at a concrete input. -/
theorem createEvent_shallow_copy_witness :
    getField
        (setField
          (createEvent [[("y", JSVal.vNum 1)], [("x", JSVal.vRef 0)], []]
            EventType.TOOL_CALL "t" 1 2 "id-1" "ts-1").1 1 "x" (JSVal.vNum 9))
        (createEvent [[("y", JSVal.vNum 1)], [("x", JSVal.vRef 0)], []]
          EventType.TOOL_CALL "t" 1 2 "id-1" "ts-1").2.payload "x" =
      getField
        (createEvent [[("y", JSVal.vNum 1)], [("x", JSVal.vRef 0)], []]
          EventType.TOOL_CALL "t" 1 2 "id-1" "ts-1").1
        (createEvent [[("y", JSVal.vNum 1)], [("x", JSVal.vRef 0)], []]
          EventType.TOOL_CALL "t" 1 2 "id-1" "ts-1").2.payload "x" := by
  have hmain := createEvent_shallow_copy [[("y", JSVal.vNum 1)], [("x", JSVal.vRef 0)], []]
    EventType.TOOL_CALL "t" 1 2 "id-1" "ts-1" (by decide) (by decide)
  exact hmain.2.2.2.2.1 "x" (JSVal.vNum 9) "x"

/-- C10: every event produced by `createEvent` passes the `isValidEvent`
type guard: the generated id, name and timestamp are strings, the type is
one of the `EventType` string values, and the payload and metadata are
freshly allocated non-null objects. -/
theorem createEvent_isValidEvent (h : Heap) (ty : EventType) (nm : String)
    (payload metadata : Nat) (id ts : String) :
    isValidEvent
      (eventToUnknown (createEvent h ty nm payload metadata id ts).1
        (createEvent h ty nm payload metadata id ts).2) = true := by
  have hpay :
      getObj ((h ++ [entriesOf h payload]) ++
          [entriesOf (h ++ [entriesOf h payload]) metadata]) h.length =
        some (entriesOf h payload) := by
    rw [getObj_append_lt _ _ _ (by simp)]
    exact getObj_concat_self h (entriesOf h payload)
  have hmet :
      getObj ((h ++ [entriesOf h payload]) ++
          [entriesOf (h ++ [entriesOf h payload]) metadata])
          ((h ++ [entriesOf h payload]).length) =
        some (entriesOf (h ++ [entriesOf h payload]) metadata) :=
    getObj_concat_self (h ++ [entriesOf h payload])
      (entriesOf (h ++ [entriesOf h payload]) metadata)
  simp only [createEvent, alloc, eventToUnknown, jsvalToUnknown, hpay, hmet]
  cases ty <;> rfl

/-! ## Claims about `src/client.ts` -/

/-- C1: on any client with a non-empty queue, when the batch send fails
(non-2xx response or thrown network error), `flush` returns normally
(`Except.ok`, never propagating the failure) and the removed batch is
reinserted at the head, so the queue is exactly what it was before the
attempt — same events, same order, same `getQueueSize()`. -/
theorem flush_failure_restores_queue (s : ClientState) (net : List Event → SendOutcome)
    (hne : s.eventQueue ≠ [])
    (hfail : net (s.eventQueue.take s.batchSize) ≠ SendOutcome.ok2xx) :
    ∃ s', TruseraClient.flush s net =
        Except.ok (s', some (s.eventQueue.take s.batchSize)) ∧
      s'.eventQueue = s.eventQueue ∧
      TruseraClient.getQueueSize s' = TruseraClient.getQueueSize s := by
  unfold TruseraClient.flush
  rw [List.isEmpty_eq_false.mpr hne]
  simp only [Bool.false_eq_true, if_false]
  cases hnet : net (s.eventQueue.take s.batchSize) with
  | ok2xx => exact absurd hnet hfail
  | httpError status body =>
      refine ⟨_, rfl, ?_, ?_⟩ <;>
        simp [TruseraClient.getQueueSize, List.take_append_drop]
  | netThrow msg =>
      refine ⟨_, rfl, ?_, ?_⟩ <;>
        simp [TruseraClient.getQueueSize, List.take_append_drop]

/-- Witness for `flush_failure_restores_queue`: one queued event, the
send returns HTTP 500, the queue still holds that event. -/
theorem flush_failure_restores_queue_witness :
    ∃ s', TruseraClient.flush
        { apiKey := "tsk_w", baseUrl := "b", batchSize := 100, flushInterval := 5000,
          debug := false, agentId := none,
          eventQueue := [{ id := "e1", type := EventType.TOOL_CALL, name := "n",
                           payload := 0, metadata := 0, timestamp := "t" }],
          timerActive := true, isClosed := false }
        (fun _ => SendOutcome.httpError 500 "Internal Server Error") =
        Except.ok (s', some [{ id := "e1", type := EventType.TOOL_CALL, name := "n",
                               payload := 0, metadata := 0, timestamp := "t" }]) ∧
      s'.eventQueue = [{ id := "e1", type := EventType.TOOL_CALL, name := "n",
                         payload := 0, metadata := 0, timestamp := "t" }] ∧
      TruseraClient.getQueueSize s' = 1 := by
  have hmain := flush_failure_restores_queue
    { apiKey := "tsk_w", baseUrl := "b", batchSize := 100, flushInterval := 5000,
      debug := false, agentId := none,
      eventQueue := [{ id := "e1", type := EventType.TOOL_CALL, name := "n",
                       payload := 0, metadata := 0, timestamp := "t" }],
      timerActive := true, isClosed := false }
    (fun _ => SendOutcome.httpError 500 "Internal Server Error")
    (by simp) (by simp)
  obtain ⟨s', heq, hq, hsz⟩ := hmain
  exact ⟨s', heq, hq, hsz⟩

/-- C6: `track` on a closed client throws the closed-client error and
changes nothing: the returned heap and state are the given ones (so
`getQueueSize()` is unchanged) and the call's result is the thrown
`"Cannot track events on closed client"`. -/
theorem track_after_close_fails (h : Heap) (s : ClientState) (e : Event)
    (hc : s.isClosed = true) :
    TruseraClient.track h s e =
      (h, s, Except.error "Cannot track events on closed client") := by
  unfold TruseraClient.track
  rw [hc]
  simp

/-- Witness for `track_after_close_fails` on a concrete closed client. -/
theorem track_after_close_fails_witness :
    TruseraClient.track []
        { apiKey := "tsk_w", baseUrl := "b", batchSize := 100, flushInterval := 5000,
          debug := false, agentId := none, eventQueue := [],
          timerActive := false, isClosed := true }
        { id := "e1", type := EventType.TOOL_CALL, name := "n",
          payload := 0, metadata := 0, timestamp := "t" } =
      ([],
       { apiKey := "tsk_w", baseUrl := "b", batchSize := 100, flushInterval := 5000,
         debug := false, agentId := none, eventQueue := [],
         timerActive := false, isClosed := true },
       Except.error "Cannot track events on closed client") :=
  track_after_close_fails []
    { apiKey := "tsk_w", baseUrl := "b", batchSize := 100, flushInterval := 5000,
      debug := false, agentId := none, eventQueue := [],
      timerActive := false, isClosed := true }
    { id := "e1", type := EventType.TOOL_CALL, name := "n",
      payload := 0, metadata := 0, timestamp := "t" }
    rfl

/-- C7: `flush` on an empty queue is a no-op (no send, `none`); on a
non-empty queue of length `n` it removes exactly `min n batchSize` events
from the head, in order, and sends them as the single batch; on a 2xx
response those events are discarded, leaving `getQueueSize()` equal to
`n - min n batchSize`. -/
theorem flush_batches_from_head (s : ClientState) (net : List Event → SendOutcome) :
    (s.eventQueue = [] → TruseraClient.flush s net = Except.ok (s, none)) ∧
    (s.eventQueue ≠ [] →
      ∃ s', TruseraClient.flush s net =
          Except.ok (s', some (s.eventQueue.take s.batchSize)) ∧
        (s.eventQueue.take s.batchSize).length =
          min s.eventQueue.length s.batchSize ∧
        s.eventQueue.take s.batchSize ++ s.eventQueue.drop s.batchSize =
          s.eventQueue ∧
        (net (s.eventQueue.take s.batchSize) = SendOutcome.ok2xx →
          s'.eventQueue = s.eventQueue.drop s.batchSize ∧
          TruseraClient.getQueueSize s' =
            s.eventQueue.length - min s.eventQueue.length s.batchSize)) := by
  constructor
  · intro hq
    unfold TruseraClient.flush
    rw [hq]
    rfl
  · intro hne
    unfold TruseraClient.flush
    rw [List.isEmpty_eq_false.mpr hne]
    simp only [Bool.false_eq_true, if_false]
    cases hnet : net (s.eventQueue.take s.batchSize) with
    | ok2xx =>
        refine ⟨_, rfl, ?_, List.take_append_drop _ _, fun _ => ⟨rfl, ?_⟩⟩
        · rw [List.length_take]
          exact Nat.min_comm _ _
        · simp [TruseraClient.getQueueSize]
          omega
    | httpError status body =>
        refine ⟨_, rfl, ?_, List.take_append_drop _ _, fun hcon => absurd hcon (by simp)⟩
        rw [List.length_take]
        exact Nat.min_comm _ _
    | netThrow msg =>
        refine ⟨_, rfl, ?_, List.take_append_drop _ _, fun hcon => absurd hcon (by simp)⟩
        rw [List.length_take]
        exact Nat.min_comm _ _

/-- Witness for `flush_batches_from_head`: two queued events, batch size
100, a 2xx response: both events go out in one batch and the queue
empties. -/
theorem flush_batches_from_head_witness :
    ∃ s', TruseraClient.flush
        { apiKey := "tsk_w", baseUrl := "b", batchSize := 100, flushInterval := 5000,
          debug := false, agentId := none,
          eventQueue := [{ id := "e1", type := EventType.TOOL_CALL, name := "n1",
                           payload := 0, metadata := 0, timestamp := "t1" },
                         { id := "e2", type := EventType.LLM_INVOKE, name := "n2",
                           payload := 0, metadata := 0, timestamp := "t2" }],
          timerActive := true, isClosed := false }
        (fun _ => SendOutcome.ok2xx) =
        Except.ok (s', some [{ id := "e1", type := EventType.TOOL_CALL, name := "n1",
                               payload := 0, metadata := 0, timestamp := "t1" },
                             { id := "e2", type := EventType.LLM_INVOKE, name := "n2",
                               payload := 0, metadata := 0, timestamp := "t2" }]) ∧
      s'.eventQueue = [] ∧ TruseraClient.getQueueSize s' = 0 := by
  have hmain := (flush_batches_from_head
    { apiKey := "tsk_w", baseUrl := "b", batchSize := 100, flushInterval := 5000,
      debug := false, agentId := none,
      eventQueue := [{ id := "e1", type := EventType.TOOL_CALL, name := "n1",
                       payload := 0, metadata := 0, timestamp := "t1" },
                     { id := "e2", type := EventType.LLM_INVOKE, name := "n2",
                       payload := 0, metadata := 0, timestamp := "t2" }],
      timerActive := true, isClosed := false }
    (fun _ => SendOutcome.ok2xx)).2 (by simp)
  obtain ⟨s', heq, _, _, himp⟩ := hmain
  obtain ⟨hq, hsz⟩ := himp rfl
  exact ⟨s', heq, by simpa using hq, by simpa using hsz⟩

/-- C8: `close` marks the client closed and stops the auto-flush timer
(in every outcome of the final flush), and when the `N` pending events
fit into one batch (`N ≤ batchSize`, queue non-empty) and the send
succeeds, the one final flush sends exactly those `N` events as a single
batch and leaves `getQueueSize() = 0`. -/
theorem close_drains_queue (s : ClientState) (net : List Event → SendOutcome) :
    (∃ r, TruseraClient.close s net = Except.ok r ∧
      r.1.isClosed = true ∧ r.1.timerActive = false) ∧
    (s.eventQueue ≠ [] → s.eventQueue.length ≤ s.batchSize →
      net s.eventQueue = SendOutcome.ok2xx →
      TruseraClient.close s net =
        Except.ok ({ s with isClosed := true, timerActive := false, eventQueue := [] },
          some s.eventQueue)) := by
  constructor
  · unfold TruseraClient.close TruseraClient.flush
    by_cases hq : s.eventQueue.isEmpty
    · simp only [hq, if_true]
      exact ⟨_, rfl, rfl, rfl⟩
    · simp only [hq, if_false]
      cases net (s.eventQueue.take s.batchSize) with
      | ok2xx => exact ⟨_, rfl, rfl, rfl⟩
      | httpError status body => exact ⟨_, rfl, rfl, rfl⟩
      | netThrow msg => exact ⟨_, rfl, rfl, rfl⟩
  · intro hne hfit hok
    unfold TruseraClient.close TruseraClient.flush
    rw [List.isEmpty_eq_false.mpr hne]
    simp only [Bool.false_eq_true, if_false, List.take_of_length_le hfit,
      List.drop_eq_nil_of_le hfit, hok]

/-- Witness for `close_drains_queue`: one pending event, 2xx send:
`close` sends it and empties the queue. -/
theorem close_drains_queue_witness :
    TruseraClient.close
        { apiKey := "tsk_w", baseUrl := "b", batchSize := 100, flushInterval := 5000,
          debug := false, agentId := none,
          eventQueue := [{ id := "e1", type := EventType.TOOL_CALL, name := "n",
                           payload := 0, metadata := 0, timestamp := "t" }],
          timerActive := true, isClosed := false }
        (fun _ => SendOutcome.ok2xx) =
      Except.ok
        ({ apiKey := "tsk_w", baseUrl := "b", batchSize := 100, flushInterval := 5000,
           debug := false, agentId := none, eventQueue := [],
           timerActive := false, isClosed := true },
         some [{ id := "e1", type := EventType.TOOL_CALL, name := "n",
                 payload := 0, metadata := 0, timestamp := "t" }]) := by
  have hmain := (close_drains_queue
    { apiKey := "tsk_w", baseUrl := "b", batchSize := 100, flushInterval := 5000,
      debug := false, agentId := none,
      eventQueue := [{ id := "e1", type := EventType.TOOL_CALL, name := "n",
                       payload := 0, metadata := 0, timestamp := "t" }],
      timerActive := true, isClosed := false }
    (fun _ => SendOutcome.ok2xx)).2 (by simp) (by simp) rfl
  exact hmain

/-- C9: on an open client, `track` appends to the tail of the queue an
enriched copy of the event: same `id`, `type`, `name`, `payload` and
`timestamp`, with `metadata` pointing at a freshly allocated object
holding the event's metadata entries merged with `agent_id` (the client's
current agent identifier) and `sdk_version`.  The caller's `Event` value
and the heap objects it references are untouched: the heap only grows,
so its payload and metadata objects read back unchanged. -/
theorem track_appends_enriched_copy (h : Heap) (s : ClientState) (e : Event)
    (hopen : s.isClosed = false) (hp : e.payload < h.length) (hm : e.metadata < h.length) :
    ∃ trig, TruseraClient.track h s e =
        (h ++ [TruseraClient.enrichedMetaEntries h s e],
         { s with eventQueue := s.eventQueue ++ [{ e with metadata := h.length }] },
         Except.ok trig) ∧
      getObj (h ++ [TruseraClient.enrichedMetaEntries h s e]) h.length =
        some (TruseraClient.enrichedMetaEntries h s e) ∧
      getObj (h ++ [TruseraClient.enrichedMetaEntries h s e]) e.payload =
        getObj h e.payload ∧
      getObj (h ++ [TruseraClient.enrichedMetaEntries h s e]) e.metadata =
        getObj h e.metadata := by
  refine ⟨decide (s.batchSize ≤ s.eventQueue.length + 1), ?_, getObj_concat_self h _,
    getObj_append_lt _ _ _ hp, getObj_append_lt _ _ _ hm⟩
  unfold TruseraClient.track
  rw [hopen]
  simp [alloc]

/-- Witness for `track_appends_enriched_copy`: a concrete open client
with an agent id, tracking an event whose metadata lives at address 0. -/
theorem track_appends_enriched_copy_witness :
    ∃ trig, TruseraClient.track [[("k", JSVal.vStr "v")]]
        { apiKey := "tsk_w", baseUrl := "b", batchSize := 100, flushInterval := 5000,
          debug := false, agentId := some "agent-123", eventQueue := [],
          timerActive := true, isClosed := false }
        { id := "e1", type := EventType.TOOL_CALL, name := "n",
          payload := 0, metadata := 0, timestamp := "t" } =
        ([[("k", JSVal.vStr "v")],
          [("k", JSVal.vStr "v"), ("agent_id", JSVal.vStr "agent-123"),
           ("sdk_version", JSVal.vStr "0.1.0")]],
         { apiKey := "tsk_w", baseUrl := "b", batchSize := 100, flushInterval := 5000,
           debug := false, agentId := some "agent-123",
           eventQueue := [{ id := "e1", type := EventType.TOOL_CALL, name := "n",
                            payload := 0, metadata := 1, timestamp := "t" }],
           timerActive := true, isClosed := false },
         Except.ok trig) := by
  obtain ⟨trig, heq, -, -, -⟩ := track_appends_enriched_copy [[("k", JSVal.vStr "v")]]
    { apiKey := "tsk_w", baseUrl := "b", batchSize := 100, flushInterval := 5000,
      debug := false, agentId := some "agent-123", eventQueue := [],
      timerActive := true, isClosed := false }
    { id := "e1", type := EventType.TOOL_CALL, name := "n",
      payload := 0, metadata := 0, timestamp := "t" }
    rfl (by decide) (by decide)
  exact ⟨trig, by rw [heq]; rfl⟩

/-! ## Claims about the interceptor (modelled from the spec) -/

/-- C2: the process-wide transport slot holds at most one interceptor
instance (`holder` is an `Option`), and: `install` by a different
instance while one holds the slot fails with the already-installed error;
`install` by the instance already holding the slot is a no-op; a
successful `install` into a free slot saves the active transport, and
`uninstall` then restores exactly that transport and clears the installed
flag; `uninstall` on a non-installed instance is a no-op. -/
theorem interceptor_slot_discipline (w : TransportSlot) (it other : TruseraInterceptor) :
    (w.holder = some other.instId → other.instId ≠ it.instId →
      TruseraInterceptor.install w it =
        Except.error "Another TruseraInterceptor is already installed") ∧
    (w.holder = some it.instId →
      TruseraInterceptor.install w it = Except.ok (w, it)) ∧
    (w.holder = none →
      TruseraInterceptor.install w it =
        Except.ok
          ({ current := Transport.intercepting it.instId, holder := some it.instId },
           { it with installed := true, savedTransport := w.current }) ∧
      (TruseraInterceptor.uninstall
          { current := Transport.intercepting it.instId, holder := some it.instId }
          { it with installed := true, savedTransport := w.current }).1.current =
        w.current ∧
      (TruseraInterceptor.uninstall
          { current := Transport.intercepting it.instId, holder := some it.instId }
          { it with installed := true, savedTransport := w.current }).2.installed =
        false) ∧
    (it.installed = false → TruseraInterceptor.uninstall w it = (w, it)) := by
  refine ⟨?_, ?_, ?_, ?_⟩
  · intro hh hne
    unfold TruseraInterceptor.install
    rw [hh]
    simp [hne]
  · intro hh
    unfold TruseraInterceptor.install
    rw [hh]
    simp
  · intro hh
    unfold TruseraInterceptor.install TruseraInterceptor.uninstall
    rw [hh]
    simp
  · intro hni
    unfold TruseraInterceptor.uninstall
    rw [hni]
    simp

/-- Witness for `interceptor_slot_discipline`: instance 1 holds the slot,
instance 2's install fails; and a fresh slot install/uninstall round trip
restores the original transport. -/
theorem interceptor_slot_discipline_witness :
    TruseraInterceptor.install
        { current := Transport.intercepting 1, holder := some 1 }
        { instId := 2, installed := false, savedTransport := Transport.base 9 } =
      Except.error "Another TruseraInterceptor is already installed" ∧
    (TruseraInterceptor.uninstall
        { current := Transport.intercepting 2, holder := some 2 }
        { instId := 2, installed := true, savedTransport := Transport.base 0 }).1.current =
      Transport.base 0 := by
  constructor
  · exact (interceptor_slot_discipline
      { current := Transport.intercepting 1, holder := some 1 }
      { instId := 2, installed := false, savedTransport := Transport.base 9 }
      { instId := 1, installed := true, savedTransport := Transport.base 0 }).1
      rfl (by decide)
  · exact ((interceptor_slot_discipline
      { current := Transport.base 0, holder := none }
      { instId := 2, installed := false, savedTransport := Transport.base 9 }
      { instId := 1, installed := true, savedTransport := Transport.base 0 }).2.2.1
      rfl).2.1

/-- C3: with a configured `policyUrl`, when the policy-evaluation call is
unreachable or errors, the interceptor fails open in every enforcement
mode: the real call through the saved prior transport executes (exactly
one transport call) and the caller gets the real call's own outcome —
never a `PolicyViolationError`. -/
theorem policy_failure_fails_open (opts : InterceptorOptions) (m : String)
    (realCall : Except String Nat) (url : String) (u : String)
    (hpu : opts.policyUrl = some u) :
    (interceptedFetch opts (PolicyOutcome.unreachable m) realCall url).transportCalls = 1 ∧
    (interceptedFetch opts (PolicyOutcome.unreachable m) realCall url).outcome =
      realOutcome realCall ∧
    ∀ msg, (interceptedFetch opts (PolicyOutcome.unreachable m) realCall url).outcome ≠
      Except.error (JsError.policyViolation msg) := by
  unfold interceptedFetch
  by_cases hex : matchesExclude opts url
  · cases realCall <;> simp [hex, realOutcome]
  · rw [hpu]
    cases henf : opts.enforcement <;> cases realCall <;> simp [hex, realOutcome]

/-- Witness for `policy_failure_fails_open`: block mode, policy endpoint
throwing, real call returning 200: the call goes through and succeeds. -/
theorem policy_failure_fails_open_witness :
    (interceptedFetch
        { enforcement := Enforcement.block,
          policyUrl := some "https://policy.example.com/evaluate",
          excludePatterns := [], debug := false }
        (PolicyOutcome.unreachable "Policy service down")
        (Except.ok 200) "https://api.example.com/test").transportCalls = 1 ∧
    (interceptedFetch
        { enforcement := Enforcement.block,
          policyUrl := some "https://policy.example.com/evaluate",
          excludePatterns := [], debug := false }
        (PolicyOutcome.unreachable "Policy service down")
        (Except.ok 200) "https://api.example.com/test").outcome = Except.ok 200 := by
  have hmain := policy_failure_fails_open
    { enforcement := Enforcement.block,
      policyUrl := some "https://policy.example.com/evaluate",
      excludePatterns := [], debug := false }
    "Policy service down" (Except.ok 200) "https://api.example.com/test"
    "https://policy.example.com/evaluate" rfl
  exact ⟨hmain.1, hmain.2.1⟩

/-- C4: block mode, configured `policyUrl`, non-excluded URL, policy
decision Deny: the caller gets a `PolicyViolationError` whose message
names the first denial reason, and the saved prior transport is never
invoked (zero transport calls). -/
theorem block_deny_never_calls_transport (opts : InterceptorOptions) (u r : String)
    (rs : List String) (realCall : Except String Nat) (url : String)
    (hex : matchesExclude opts url = false)
    (henf : opts.enforcement = Enforcement.block)
    (hpu : opts.policyUrl = some u) :
    (interceptedFetch opts (PolicyOutcome.ok (PolicyDecision.Deny (r :: rs)))
        realCall url).transportCalls = 0 ∧
    (interceptedFetch opts (PolicyOutcome.ok (PolicyDecision.Deny (r :: rs)))
        realCall url).outcome =
      Except.error (JsError.policyViolation ("[Trusera] Policy violation: " ++ r)) := by
  unfold interceptedFetch
  rw [hpu, henf]
  simp [hex, policyViolationMessage]

/-- Witness for `block_deny_never_calls_transport`, mirroring the test
fixture: Deny with reason "Unauthorized API access". -/
theorem block_deny_never_calls_transport_witness :
    (interceptedFetch
        { enforcement := Enforcement.block,
          policyUrl := some "https://policy.example.com/evaluate",
          excludePatterns := [], debug := false }
        (PolicyOutcome.ok (PolicyDecision.Deny ["Unauthorized API access"]))
        (Except.ok 200) "https://api.example.com/test").transportCalls = 0 ∧
    (interceptedFetch
        { enforcement := Enforcement.block,
          policyUrl := some "https://policy.example.com/evaluate",
          excludePatterns := [], debug := false }
        (PolicyOutcome.ok (PolicyDecision.Deny ["Unauthorized API access"]))
        (Except.ok 200) "https://api.example.com/test").outcome =
      Except.error
        (JsError.policyViolation "[Trusera] Policy violation: Unauthorized API access") := by
  have hmain := block_deny_never_calls_transport
    { enforcement := Enforcement.block,
      policyUrl := some "https://policy.example.com/evaluate",
      excludePatterns := [], debug := false }
    "https://policy.example.com/evaluate" "Unauthorized API access" []
    (Except.ok 200) "https://api.example.com/test" rfl rfl rfl
  exact hmain

end Trusera
